import Mathlib

/-!
# EasyDeals storefront components — verification of the specification

Shallow embedding of the client-side search/view logic of the EasyDeals
repository:

* `searchCard` (src/unnamed/part_000, LWC `SearchCard`): per-card getters
  `image`, `fields`, `price`, `hasPrice`, `listingPrice`,
  `canShowListingPrice`, `currency`.
* `searchResults` (src/force-app/.../searchResults/searchResults.js, LWC
  `SearchResults`): query setters, `triggerProductSearch`, `headerText`,
  `resolvedEffectiveAccountId`, facet/category/page handlers,
  `closeComparingModal`, and the asynchronous request/response dynamics of
  the promise chains.

JavaScript values are embedded explicitly: a possibly-absent string property
is `Option String` (`none` = the property is `undefined`); JS truthiness of
such a value is `none ↦ false`, `some s ↦ s ≠ ""`.  The host primitive
`Number : string → number` is kept as a parameter `N : String → Option ℚ`
(`none` standing for `NaN`), since its coercion table lives in the JS engine,
not in this repository; the JS comparison `a > b` on numbers is false
whenever either side is `NaN`.  A property access on `undefined` throws a
`TypeError`; getters that can throw are embedded in `Except JSError`.
-/

namespace EasyDeals

/-- JS runtime errors that the embedded getters can raise: reading a
property of `undefined` throws a `TypeError`. -/
inductive JSError where
  | typeError
deriving DecidableEq, Repr

/-- Truthiness of a possibly-absent JS string: `undefined` and `""` are
falsy, every other string is truthy. -/
def truthyStr : Option String → Bool
  | none => false
  | some s => s ≠ ""

/-- JS `a || b` on possibly-absent strings: `b` when `a` is falsy. -/
def jsOrStr (a b : Option String) : Option String :=
  if truthyStr a then a else b

/-- JS `Number(x)` applied to a possibly-absent string, given the host
coercion `N` on strings; `Number(undefined)` is `NaN` (`none`). -/
def jsNum (N : String → Option ℚ) : Option String → Option ℚ
  | none => none
  | some s => N s

/-- JS `a > b` on numbers where `none` stands for `NaN`: false whenever
either operand is `NaN`. -/
def numGT : Option ℚ → Option ℚ → Bool
  | some a, some b => decide (a > b)
  | _, _ => false

/-- The `prices` object of a product
(`{listingPrice, negotiatedPrice, currencyIsoCode}`, each a possibly-absent
string), per the `Pricing` typedef of src/unnamed/part_000. -/
structure Prices where
  listingPrice : Option String := none
  negotiatedPrice : Option String := none
  currencyIsoCode : Option String := none
deriving DecidableEq, Repr

/-- A product image (`{url, title, alternativeText}`), per the `Image`
typedef of src/unnamed/part_000. -/
structure Image where
  url : Option String := none
  title : Option String := none
  alternativeText : Option String := none
deriving DecidableEq, Repr

/-- A raw `{name, value}` field entry of a product. -/
structure RawField where
  name : String
  value : String
deriving DecidableEq, Repr

/-- A product as held in a card's `displayData` (and as delivered by the
backend): `id`, `name`, and the optional `image`, `fields`, `prices`
properties (`none` = property absent). -/
structure Product where
  id : String := ""
  name : String := ""
  image : Option Image := none
  fields : Option (List RawField) := none
  prices : Option Prices := none
deriving DecidableEq, Repr

/-- One entry of the card's derived `fields` view:
`{id, tabIndex, class, value}` (the CSS class field is named `cls`). -/
structure DisplayField where
  id : Nat
  tabIndex : Int
  cls : String
  value : String
deriving DecidableEq, Repr

/-- `SearchCard.get fields` (src/unnamed/part_000 lines 158-174):
`(displayData.fields || []).map(({name, value}, id) => ({id: id + 1,
tabIndex: id === 0 ? 0 : -1, class: ..., value: name === 'Name' ||
name === 'Description' ? value : `name: value`}))`. -/
def fieldsView (fs : List RawField) : List DisplayField :=
  fs.enum.map fun p =>
    { id := p.1 + 1
      tabIndex := if p.1 = 0 then 0 else -1
      cls := if p.1 = 0
             then "slds-truncate slds-text-heading_medium"
             else "slds-truncate slds-text-heading_small"
      value := if p.2.name = "Name" || p.2.name = "Description"
               then p.2.value
               else p.2.name ++ ": " ++ p.2.value }

/-- `SearchCard.get image` (lines 147-149): `this.displayData.image || {}` —
total, the absent image defaults to an empty object. -/
def cardImage (d : Product) : Image :=
  d.image.getD {}

/-- `SearchCard.get fields` at product level: `displayData.fields || []`
then the per-field mapping — total. -/
def cardFields (d : Product) : List DisplayField :=
  fieldsView (d.fields.getD [])

/-- `SearchCard.get price` (lines 205-208): reads
`this.displayData.prices.negotiatedPrice` — throws a `TypeError` when the
`prices` property is absent; otherwise
`prices.negotiatedPrice || prices.listingPrice`. -/
def cardPrice (d : Product) : Except JSError (Option String) :=
  match d.prices with
  | none => .error .typeError
  | some p => .ok (jsOrStr p.negotiatedPrice p.listingPrice)

/-- `SearchCard.get hasPrice` (lines 217-219): `!!this.price` — the
truthiness of the `price` getter's result (propagates its `TypeError`). -/
def cardHasPrice (d : Product) : Except JSError Bool :=
  (cardPrice d).map truthyStr

/-- `SearchCard.get listingPrice` (lines 226-228):
`this.displayData.prices.listingPrice` — throws when `prices` is absent. -/
def cardListingPrice (d : Product) : Except JSError (Option String) :=
  match d.prices with
  | none => .error .typeError
  | some p => .ok p.listingPrice

/-- `SearchCard.get canShowListingPrice` (lines 235-244):
`prices.negotiatedPrice && prices.listingPrice &&
Number(prices.listingPrice) > Number(prices.negotiatedPrice)`, where
`prices = this.displayData.prices` (throws when absent).  The embedded
result is the truthiness of the JS `&&` chain, which is truthy iff every
conjunct is truthy. -/
def canShowListingPrice (N : String → Option ℚ) (d : Product) :
    Except JSError Bool :=
  match d.prices with
  | none => .error .typeError
  | some p =>
      .ok (truthyStr p.negotiatedPrice && truthyStr p.listingPrice &&
           numGT (jsNum N p.listingPrice) (jsNum N p.negotiatedPrice))

/-- `SearchCard.get currency` (lines 253-255):
`this.displayData.prices.currencyIsoCode` — throws when `prices` is
absent. -/
def cardCurrency (d : Product) : Except JSError (Option String) :=
  match d.prices with
  | none => .error .typeError
  | some p => .ok p.currencyIsoCode

/-- Whether an embedded getter yielded a value rather than throwing. -/
def exOk {α : Type} : Except JSError α → Bool
  | .ok _ => true
  | .error _ => false

/-! ## View-Model Builder (`transformData` of `./dataNormalizer`)

`searchResults.js` imports `transformData` from `./dataNormalizer`, a file of
this repository that is not present under src/. -/

/-- A raw result page from the Gateway:
`{total, pageSize, results}`. -/
structure RawPage where
  total : Int := 0
  pageSize : Int := 0
  results : List Product := []
deriving DecidableEq, Repr

/-- A display-ready page: `{total, pageSize, cards}`. -/
structure DisplayPage where
  total : Int := 0
  pageSize : Int := 0
  cards : List Product := []
deriving DecidableEq, Repr

/-- Modelled from the spec: `./dataNormalizer.js` (the `transformData`
builder imported by searchResults.js) is not under src/; the spec describes
`build(rawPage, fieldMapping?) -> DisplayPage` as a "total function, no
failure modes (absent optional fields default to empty structures, never
throws)".  Per-product defaulting of the optional `image`, `fields` and
`prices` properties to empty structures. -/
def buildCard (r : Product) : Product :=
  { r with
    image := some (r.image.getD {})
    fields := some (r.fields.getD [])
    prices := some (r.prices.getD {}) }

/-- Modelled from the spec: the page-level builder
`build(rawPage, fieldMapping?) -> DisplayPage` (`transformData` of the
missing `./dataNormalizer.js`) — carries `total` and `pageSize` over and
defaults every card's absent optional fields. -/
def transformData (raw : RawPage) : DisplayPage :=
  { total := raw.total
    pageSize := raw.pageSize
    cards := raw.results.map buildCard }

/-! ## Search/Pagination Coordinator (`searchResults.js`) -/

/-- The query-parameter state owned by the `SearchResults` component:
`_term`, `_recordId`, `_landingRecordId`, `_refinements`, `_pageNumber`
(searchResults.js lines 592-598).  Refinements are kept abstract as the
strings the facet panel delivers. -/
structure SearchState where
  term : Option String := none
  recordId : Option String := none
  landingRecordId : Option String := none
  refinements : List String := []
  pageNumber : Int := 1
deriving DecidableEq, Repr

/-- The serialized search query `triggerProductSearch` sends to the Gateway
(searchResults.js lines 141-151): `{searchTerm, categoryId, refinements,
page: this._pageNumber - 1, includePrices: true,
includeQuantityRule: true}`. -/
structure SearchQuery where
  searchTerm : Option String := none
  categoryId : Option String := none
  refinements : List String := []
  page : Int := 0
  includePrices : Bool := true
  includeQuantityRule : Bool := true
deriving DecidableEq, Repr

/-- The query issued by `triggerProductSearch` from a given coordinator
state (searchResults.js lines 141-151). -/
def issuedQuery (s : SearchState) : SearchQuery :=
  { searchTerm := s.term
    categoryId := s.recordId
    refinements := s.refinements
    page := s.pageNumber - 1
    includePrices := true
    includeQuantityRule := true }

/-- `set recordId(value)` (searchResults.js lines 60-65): stores the value
into `_recordId` and `_landingRecordId`, then calls
`triggerProductSearch()`.  Returns the new state and the list of queries the
assignment issued. -/
def setRecordId (s : SearchState) (v : Option String) :
    SearchState × List SearchQuery :=
  let s1 := { s with recordId := v, landingRecordId := v }
  (s1, [issuedQuery s1])

/-- `set term(value)` (searchResults.js lines 76-81): stores the value into
`_term`, then calls `triggerProductSearch()` only `if (value)` — i.e. only
when the new term is truthy. -/
def setTerm (s : SearchState) (v : Option String) :
    SearchState × List SearchQuery :=
  let s1 := { s with term := v }
  (s1, if truthyStr v then [issuedQuery s1] else [])

/-- `handleFacetValueUpdate(evt)` (searchResults.js lines 420-426): stores
`evt.detail.refinements`, resets `_pageNumber` to 1, then searches. -/
def handleFacetValueUpdate (s : SearchState) (refs : List String) :
    SearchState × List SearchQuery :=
  let s1 := { s with refinements := refs, pageNumber := 1 }
  (s1, [issuedQuery s1])

/-- `handleCategoryUpdate(evt)` (searchResults.js lines 433-439): stores
`evt.detail.categoryId` into `_recordId` (the private field, bypassing the
`recordId` setter, so `_landingRecordId` is untouched), resets `_pageNumber`
to 1, then searches. -/
def handleCategoryUpdate (s : SearchState) (catId : Option String) :
    SearchState × List SearchQuery :=
  let s1 := { s with recordId := catId, pageNumber := 1 }
  (s1, [issuedQuery s1])

/-- `handleNextPage(evt)` (searchResults.js lines 408-413):
`_pageNumber += 1`, then searches. -/
def handleNextPage (s : SearchState) : SearchState × List SearchQuery :=
  let s1 := { s with pageNumber := s.pageNumber + 1 }
  (s1, [issuedQuery s1])

/-- `handlePreviousPage(evt)` (searchResults.js lines 396-401):
`_pageNumber -= 1`, then searches. -/
def handlePreviousPage (s : SearchState) : SearchState × List SearchQuery :=
  let s1 := { s with pageNumber := s.pageNumber - 1 }
  (s1, [issuedQuery s1])

/-- `get headerText` (searchResults.js lines 248-267) as a function of the
displayed `total` and `pageSize` and the current `_pageNumber`:
`total > 1` yields a template literal
`\x7bstartIndex\x7d - \x7bendIndex\x7d of \x7btotalItemCount\x7d Items` with
`startIndex = (_pageNumber - 1) * pageSize + 1` and
`endIndex = Math.min(startIndex + pageSize - 1, totalItemCount)`;
`total === 1` yields `"1 Result"`; anything else the empty string. -/
def headerText (total pageSize page : Int) : String :=
  if total > 1 then
    let startIndex := (page - 1) * pageSize + 1
    let endIndex := min (startIndex + pageSize - 1) total
    toString startIndex ++ " - " ++ toString endIndex ++ " of " ++
      toString total ++ " Items"
  else if total = 1 then "1 Result"
  else ""

/-- `get resolvedEffectiveAccountId` (searchResults.js lines 276-287):
`const e = this.effectiveAccountId || ''` then `e` when
`e.length > 0 && e !== '000000000000000'`, else `null`. -/
def resolvedEffectiveAccountId (i : Option String) : Option String :=
  let e := i.getD ""
  if 0 < e.length ∧ e ≠ "000000000000000" then some e else none

/-! ## Comparison Session Manager (`searchResults.js`) -/

/-- The comparison-modal state of `SearchResults`: `idsToCompare` and
`isComparingModalOpen`. -/
structure CompareState where
  idsToCompare : String := ""
  isComparingModalOpen : Bool := false
deriving DecidableEq, Repr

/-- `closeComparingModal()` (searchResults.js lines 571-586): fires
`cleanCache()` (with a `.catch` that only logs) and then synchronously sets
`this.idsToCompare = ''` and `this.isComparingModalOpen = false`.  The
synchronous part, which runs before any cache response can arrive. -/
def closeComparingModal (s : CompareState) : CompareState :=
  { s with idsToCompare := "", isComparingModalOpen := false }

/-- The later settling of the `cleanCache()` call issued by
`closeComparingModal`: the success path has no callback and the `.catch`
callback only logs, so the state is unchanged whether the clear succeeded
(`failed = false`) or failed (`failed = true`). -/
def cleanCacheSettle (s : CompareState) (failed : Bool) : CompareState :=
  match failed with
  | true => s
  | false => s

/-! ## Asynchronous dynamics of `triggerProductSearch`

`triggerProductSearch` (searchResults.js lines 139-170) sets
`this._isLoading = true`, calls `productSearch(...)`, and installs a
`.then` handler (`this.displayData = result; this._isLoading = false`) and a
`.catch` handler (`this.error = error; this._isLoading = false`).  The
handlers carry no request identity and perform no staleness check, so they
run the same way no matter which outstanding request settles.  The model
numbers the issued requests 0, 1, 2, … (a ghost annotation — the code keeps
no such number) and abstracts each response payload as a natural number. -/

/-- An event of the search subsystem: a search is issued
(`triggerProductSearch` runs), or the promise of the request numbered
`reqId` resolves with a payload, or it rejects. -/
inductive SearchEv where
  | issue
  | resolve (reqId : Nat) (payload : Nat)
  | reject (reqId : Nat)
deriving DecidableEq, Repr

/-- The asynchronous view state of `SearchResults`: the loading flag, the
currently displayed payload, the (ghost) number of the request that produced
it, and how many requests have been issued so far. -/
structure AsyncState where
  isLoading : Bool := false
  displayedPayload : Option Nat := none
  displayedReq : Option Nat := none
  issuedCount : Nat := 0
deriving DecidableEq, Repr

/-- One step of the search subsystem, exactly as the promise handlers of
`triggerProductSearch` behave: `issue` sets `_isLoading = true` and starts a
new request; a `resolve` of ANY request assigns `displayData` and clears
`_isLoading`; a `reject` of ANY request clears `_isLoading`.  No handler
compares its request against the latest issued one. -/
def asyncStep (s : AsyncState) : SearchEv → AsyncState
  | .issue =>
      { s with isLoading := true, issuedCount := s.issuedCount + 1 }
  | .resolve i r =>
      { s with displayedPayload := some r, displayedReq := some i,
               isLoading := false }
  | .reject _ =>
      { s with isLoading := false }

/-- Run the search subsystem over a schedule of events. -/
def runSearch (s : AsyncState) : List SearchEv → AsyncState
  | [] => s
  | e :: es => runSearch (asyncStep s e) es

/-- Well-formedness of one event at a state: a settle event refers to a
request that has actually been issued. -/
def settlesIssued (s : AsyncState) : SearchEv → Bool
  | .issue => true
  | .resolve i _ => i < s.issuedCount
  | .reject i => i < s.issuedCount

/-- Well-formedness of a schedule from a state: every settle event along the
run refers to an already-issued request. -/
def wellFormed (s : AsyncState) : List SearchEv → Bool
  | [] => true
  | e :: es => settlesIssued s e && wellFormed (asyncStep s e) es

/-! ## Helper lemmas -/

/-- A possibly-absent JS string is truthy exactly when it is a present,
non-empty string. -/
theorem truthyStr_eq_true (o : Option String) :
    truthyStr o = true ↔ ∃ s, o = some s ∧ s ≠ "" := by
  cases o <;> simp [truthyStr]

/-- JS `>` never holds between a number and itself (also covering the
`NaN > NaN` case). -/
theorem numGT_self (x : Option ℚ) : numGT x x = false := by
  cases x <;> simp [numGT]

/-- A string has positive length exactly when it is non-empty. -/
theorem string_length_pos (s : String) : 0 < s.length ↔ s ≠ "" := by
  cases s with
  | mk l =>
      cases l <;>
        simp [String.length, String.ext_iff]

/-- Mapping a function of the element only over an enumerated list forgets
the indices. -/
theorem enumFrom_map_of_snd {α β : Type} (h : α → β) :
    ∀ (n : Nat) (fs : List α),
      (List.enumFrom n fs).map (fun p => h p.2) = fs.map h
  | _, [] => rfl
  | n, f :: fs => by
      simp only [List.enumFrom, List.map]
      rw [enumFrom_map_of_snd h (n + 1) fs]

/-! ## Claim theorems -/

/-- C5: for every field list of a raw product and for each `{name, value}`
pair in it, the formatted display value equals `value` exactly when `name`
is `"Name"` or `"Description"`, and equals `"name: value"` (the name, a
colon and a space, then the value) for every other name. -/
theorem fields_formatted_values (fs : List RawField) :
    (fieldsView fs).map DisplayField.value =
      fs.map (fun f =>
        if f.name = "Name" ∨ f.name = "Description"
        then f.value
        else f.name ++ ": " ++ f.value) := by
  unfold fieldsView
  rw [List.map_map]
  have hfun :
      (DisplayField.value ∘ fun p : Nat × RawField =>
        ({ id := p.1 + 1
           tabIndex := if p.1 = 0 then 0 else -1
           cls := if p.1 = 0
                  then "slds-truncate slds-text-heading_medium"
                  else "slds-truncate slds-text-heading_small"
           value := if p.2.name = "Name" || p.2.name = "Description"
                    then p.2.value
                    else p.2.name ++ ": " ++ p.2.value } : DisplayField)) =
      (fun p : Nat × RawField =>
        (fun f : RawField =>
          if f.name = "Name" ∨ f.name = "Description"
          then f.value
          else f.name ++ ": " ++ f.value) p.2) := by
    funext p
    by_cases h1 : p.2.name = "Name" <;> by_cases h2 : p.2.name = "Description" <;>
      simp [h1, h2]
  rw [hfun, List.enum]
  exact enumFrom_map_of_snd
    (fun f : RawField =>
      if f.name = "Name" ∨ f.name = "Description"
      then f.value
      else f.name ++ ": " ++ f.value) 0 fs

/-- C7: after `closeComparingModal` runs, `isComparingModalOpen` is `false`
and the local comparison ids are empty, and they stay so whether the
`cleanCache` call later succeeds or fails. -/
theorem closeComparingModal_always_cleans (s : CompareState) (failed : Bool) :
    (cleanCacheSettle (closeComparingModal s) failed).isComparingModalOpen
        = false ∧
    (cleanCacheSettle (closeComparingModal s) failed).idsToCompare = "" := by
  cases failed <;> simp [closeComparingModal, cleanCacheSettle]

/-- C8: `resolvedEffectiveAccountId` is `null` exactly when the input is
absent, empty, or the all-zero placeholder, and is the input unchanged
otherwise. -/
theorem resolvedEffectiveAccountId_spec (i : Option String) :
    resolvedEffectiveAccountId i =
      if i = none ∨ i = some "" ∨ i = some "000000000000000"
      then none
      else i := by
  cases i with
  | none => simp [resolvedEffectiveAccountId]
  | some s =>
      by_cases h0 : s = ""
      · subst h0; simp [resolvedEffectiveAccountId]
      · by_cases hz : s = "000000000000000"
        · subst hz; simp [resolvedEffectiveAccountId]
        · simp [resolvedEffectiveAccountId, h0, hz,
                (string_length_pos s).mpr h0]

/-- C10: every refinement (facet) change and every category change resets
the page number to 1, and the search it issues requests the first
(0-indexed) page. -/
theorem facet_category_reset_page (s : SearchState) (refs : List String)
    (catId : Option String) :
    (handleFacetValueUpdate s refs).1.pageNumber = 1 ∧
    ((handleFacetValueUpdate s refs).2.map SearchQuery.page = [0]) ∧
    (handleCategoryUpdate s catId).1.pageNumber = 1 ∧
    ((handleCategoryUpdate s catId).2.map SearchQuery.page = [0]) := by
  simp [handleFacetValueUpdate, handleCategoryUpdate, issuedQuery]

/-- C2: on a card whose `prices` property is present, `canShowListingPrice`
is truthy iff both `negotiatedPrice` and `listingPrice` are present and
non-empty and `Number(listingPrice) > Number(negotiatedPrice)`; and whenever
the two prices coerce to the same number, it is falsy. -/
theorem canShowListingPrice_iff (N : String → Option ℚ) (d : Product)
    (p : Prices) (h : d.prices = some p) :
    (canShowListingPrice N d = Except.ok true ↔
      (∃ s, p.negotiatedPrice = some s ∧ s ≠ "") ∧
      (∃ s, p.listingPrice = some s ∧ s ≠ "") ∧
      numGT (jsNum N p.listingPrice) (jsNum N p.negotiatedPrice) = true) ∧
    (jsNum N p.listingPrice = jsNum N p.negotiatedPrice →
      canShowListingPrice N d = Except.ok false) := by
  constructor
  · simp [canShowListingPrice, h, ← truthyStr_eq_true, and_assoc]
  · intro heq
    simp [canShowListingPrice, h, heq, numGT_self]

/-- The host `Number` coercion used by the concrete test inputs below. -/
def testNum : String → Option ℚ := fun s =>
  if s = "10" then some 10 else if s = "5" then some 5 else none

/-- A concrete prices object with listing price above negotiated price. -/
def testPrices : Prices :=
  { listingPrice := some "10", negotiatedPrice := some "5",
    currencyIsoCode := some "USD" }

/-- A concrete card holding `testPrices`. -/
def testCard : Product :=
  { id := "p1", name := "P1", prices := some testPrices }

/-- Witness for C2: on a card with negotiated price "5" and listing price
"10", the listing price is shown. -/
theorem canShowListingPrice_iff_witness :
    canShowListingPrice testNum testCard = Except.ok true :=
  (canShowListingPrice_iff testNum testCard testPrices rfl).1.mpr
    ⟨⟨"5", rfl, by decide⟩, ⟨"10", rfl, by decide⟩, by decide⟩

/-- C4: every card produced by the view-model builder (`transformData`,
modelled from the spec as defaulting the absent optional `image`, `fields`
and `prices` of a raw product to empty structures) supports every
price-related accessor without throwing; the `image` and `fields` accessors
(`cardImage`, `cardFields`) are total Lean functions on all of `Product`
already. -/
theorem build_then_accessors_never_throw (N : String → Option ℚ)
    (raw : RawPage) :
    ((transformData raw).cards.all fun d =>
      exOk (cardPrice d) && exOk (cardHasPrice d) &&
      exOk (cardListingPrice d) && exOk (canShowListingPrice N d) &&
      exOk (cardCurrency d)) = true := by
  simp only [transformData, List.all_map, List.all_eq_true]
  intro r _
  simp [Function.comp, buildCard, cardPrice, cardHasPrice, cardListingPrice,
        canShowListingPrice, cardCurrency, exOk, Except.map]

/-- Counterexample to C3 as stated: the claim's template
`\x7bstart\x7d-\x7bend\x7d of \x7btotal\x7d Items`, read literally, puts no
spaces around the dash, but at `total = 45`, `pageSize = 25`, `page = 2` the
code produces `"26 - 45 of 45 Items"` (matching the claim's own example),
not `"26-45 of 45 Items"`. -/
theorem headerText_template_counterexample :
    headerText 45 25 2 = "26 - 45 of 45 Items" ∧
    headerText 45 25 2 ≠ "26-45 of 45 Items" := by
  constructor <;> decide

/-- The header-text rule in the spec's words, with the separator the
claim's own example fixes to a dash surrounded by spaces: for `total > 1`,
`"\x7bstart\x7d - \x7bend\x7d of \x7btotal\x7d Items"` with
`start = (page - 1) * pageSize + 1` and
`end = min(start + pageSize - 1, total)`; for `total = 1`, `"1 Result"`;
for any other total, the empty string. -/
def specHeaderText (total pageSize page : Int) : String :=
  if total > 1 then
    let start := (page - 1) * pageSize + 1
    let stop := min (start + pageSize - 1) total
    toString start ++ " - " ++ toString stop ++ " of " ++
      toString total ++ " Items"
  else if total = 1 then "1 Result"
  else ""

/-- C3 (amended): `headerText` agrees everywhere with the spec's format once
the separator is written `" - "` as in the claim's example: for `total > 1`
the range string with `start = (page-1)*pageSize + 1` and
`end = min(start + pageSize - 1, total)`; `"1 Result"` for `total = 1`; and
`""` for every other total (in particular `total = 0`). -/
theorem headerText_amended (total pageSize page : Int) :
    headerText total pageSize page = specHeaderText total pageSize page := rfl

/-- A coordinator state whose term is set, about to be cleared. -/
def termSetState : SearchState := { term := some "shoes" }

/-- Counterexample to C9 as stated: assigning an empty term through the
`term` setter changes the term (from `"shoes"` to `""`) but issues zero
searches, not exactly one, because the setter guards the search with
`if (value)`. -/
theorem term_setter_counterexample :
    (setTerm termSetState (some "")).1.term ≠ termSetState.term ∧
    (setTerm termSetState (some "")).2.length = 0 := by
  constructor <;> decide

/-- C9 (amended): every `recordId` setter assignment issues exactly one
search; a `term` setter assignment issues exactly one search when the new
term is truthy (present and non-empty) and none otherwise, even when the
assignment changes the term; refinement changes and page changes, which go
through their handlers, each issue exactly one search. -/
theorem setter_search_counts (s : SearchState) (v : Option String)
    (refs : List String) :
    (setRecordId s v).2.length = 1 ∧
    (setTerm s v).2.length = (if truthyStr v then 1 else 0) ∧
    (handleFacetValueUpdate s refs).2.length = 1 ∧
    (handleNextPage s).2.length = 1 ∧
    (handlePreviousPage s).2.length = 1 := by
  by_cases h : truthyStr v = true <;>
    simp [setRecordId, setTerm, handleFacetValueUpdate, handleNextPage,
          handlePreviousPage, h]

/-- The schedule on which C1 fails: two searches are issued back-to-back
(requests 0 and 1); the later request's response (payload 20) arrives
first, then the earlier, slower request's response (payload 10). -/
def staleSchedule : List SearchEv :=
  [.issue, .issue, .resolve 1 20, .resolve 0 10]

/-- C1 fails on the code: running `triggerProductSearch`'s promise handlers
over `staleSchedule` (a well-formed schedule) leaves the page displaying the
response of request 0 — a stale response has overwritten the response of the
latest issued request 1, because the code keeps no request sequence number
and discards nothing. -/
theorem stale_response_overwrites_latest :
    wellFormed {} staleSchedule = true ∧
    (runSearch {} staleSchedule).issuedCount = 2 ∧
    (runSearch {} staleSchedule).displayedReq = some 0 ∧
    (runSearch {} staleSchedule).displayedPayload = some 10 := by
  decide

/-- The schedule on which C6 fails: two searches are issued back-to-back;
then request 0 — no longer the latest — rejects while request 1 is still in
flight. -/
def staleSettleSchedule : List SearchEv :=
  [.issue, .issue, .reject 0]

/-- C6 fails on the code: after two issues the loading flag is true, and the
settling of request 0 — not the latest, request 1 is still outstanding —
sets it back to false, because both promise handlers clear `_isLoading`
unconditionally. -/
theorem stale_settle_clears_loading :
    wellFormed {} staleSettleSchedule = true ∧
    (runSearch {} [SearchEv.issue, SearchEv.issue]).isLoading = true ∧
    (runSearch {} staleSettleSchedule).isLoading = false := by
  decide

end EasyDeals
